import Mathlib

/-!
Verification of the user-registration service in `app/app.py`.

The service validates inbound user payloads (`validate_user_data` and the
helper validators `validate_phone`, `validate_zip_code`, `validate_state`)
and performs create/update/delete against a persisted `User` collection
(`UserList.post`, `UserResource.put`, `UserResource.delete`).

Modelling conventions:
* A JSON payload is an association list from field names to Python values
  (`PyVal`); absent keys model absent fields and `PyVal.pynone` models JSON
  null / Python `None`.
* Python exceptions that escape the validator (`re.match` on a non-string,
  `.upper()` on a non-string, `KeyError`) are modelled by the `VResult.raise`
  outcome; structured `(message, status)` error returns by `VResult.err`.
* The store is a list of `User` records in insertion order;
  `filter_by(email=..).first()` is `List.find?`, `query.get(id)` is a
  `find?` on the primary key.
* The SQLAlchemy session is opaque: a commit either succeeds or fails, which
  the handlers receive as a boolean `commitOk`; on failure the code calls
  `db.session.rollback()`, which restores the pre-call store.
* Timestamps are abstract clock readings (naturals) supplied by the caller.
-/

/-- A Python/JSON value as it can appear in a request payload. -/
inductive PyVal where
  | str (s : String)
  | bool (b : Bool)
  | int (n : Int)
  | pynone
deriving DecidableEq, Repr

/-- A request payload: a JSON object, i.e. finite map from field names to
values, in key order. -/
def Payload := List (String × PyVal)

/-- `data[f]` lookup that distinguishes an absent key (`none`). -/
def pget (data : Payload) (f : String) : Option PyVal :=
  match data with
  | [] => Option.none
  | (k, v) :: rest => if k = f then some v else pget rest f

/-- Python truthiness, as used by `if not data[..]`. -/
def pyTruthy : PyVal → Bool
  | .str s => !s.isEmpty
  | .bool b => b
  | .int n => n != 0
  | .pynone => false

/-- The whitespace class of the regex escape used in the phone pattern
(space, tab, newline, carriage return, vertical tab, form feed). -/
def isPySpace (c : Char) : Bool :=
  c = ' ' || c = '\t' || c = '\n' || c = '\r' || c = '\x0b' || c = '\x0c'

/-- The dollar anchor of Python `re`: end of string, or just before a single
trailing newline. -/
def pyEnd : List Char → Bool
  | [] => true
  | [c] => c == '\n'
  | _ => false

/-- The 4-digit suffix of the phone pattern followed by the end anchor. -/
def phoneSuffix : List Char → Bool
  | a :: b :: c :: d :: rest =>
      a.isDigit && b.isDigit && c.isDigit && d.isDigit && pyEnd rest
  | _ => false

/-- After the 4-digit minimum of the 4-or-5-digit block: either the hyphen
comes now, or one more digit and then the hyphen (the two ways the
4-to-5 repetition can match given the following hyphen). -/
def phoneTail : List Char → Bool
  | x :: rest =>
      (x == '-' && phoneSuffix rest) ||
      (x.isDigit &&
        (match rest with
         | y :: rest2 => y == '-' && phoneSuffix rest2
         | [] => false))
  | [] => false

/-- The 4-or-5-digit block, the hyphen, and the suffix of the phone pattern. -/
def phoneMid : List Char → Bool
  | a :: b :: c :: d :: rest =>
      a.isDigit && b.isDigit && c.isDigit && d.isDigit && phoneTail rest
  | _ => false

/-- `validate_phone`: Python `re.match` against the anchored pattern
for `(DD) DDDD-DDDD` / `(DD) DDDDD-DDDD` where the separator is the
regex whitespace class. -/
def validate_phone (phone : String) : Bool :=
  match phone.data with
  | p1 :: a :: b :: p2 :: w :: rest =>
      p1 == '(' && a.isDigit && b.isDigit && p2 == ')' && isPySpace w &&
      phoneMid rest
  | _ => false

/-- `validate_zip_code`: Python `re.match` against the anchored
`DDDDD-DDD` pattern. -/
def validate_zip_code (zip : String) : Bool :=
  match zip.data with
  | [a, b, c, d, e, x, f, g, h] =>
      a.isDigit && b.isDigit && c.isDigit && d.isDigit && e.isDigit &&
      x == '-' && f.isDigit && g.isDigit && h.isDigit
  | [a, b, c, d, e, x, f, g, h, nl] =>
      a.isDigit && b.isDigit && c.isDigit && d.isDigit && e.isDigit &&
      x == '-' && f.isDigit && g.isDigit && h.isDigit && nl == '\n'
  | _ => false

/-- Python `str.upper()` restricted to ASCII: character-wise uppercasing. -/
def pyUpper (s : String) : String :=
  String.mk (s.data.map Char.toUpper)

/-- The fixed list of 27 Brazilian state / federal-district abbreviations. -/
def valid_states : List String :=
  ["AC", "AL", "AP", "AM", "BA", "CE", "DF", "ES", "GO", "MA", "MT", "MS",
   "MG", "PA", "PB", "PR", "PE", "PI", "RJ", "RN", "RS", "RO", "RR", "SC",
   "SP", "SE", "TO"]

/-- `validate_state`: `state.upper() in valid_states`. -/
def validate_state (state : String) : Bool :=
  valid_states.contains (pyUpper state)

/-- Modelled from the spec: the email-syntax check performed by the external
`email_validator` library (not part of this repository): the address must be
`local-part@domain` with a plausible host. Used only to instantiate the
validator at concrete inputs; all general theorems quantify over the checker. -/
def emailOkSimple (s : String) : Bool :=
  match s.data.dropWhile (fun c => c != '@') with
  | '@' :: domain =>
      !(s.data.takeWhile (fun c => c != '@')).isEmpty &&
      !domain.isEmpty && !domain.contains '@' && domain.contains '.' &&
      domain.head? != some '.' && domain.getLast? != some '.'
  | _ => false

/-- A stored `User` row. Field values are kept as the Python values the
handler assigned (the columns are dynamically typed at this level);
`id`, `created_at` and `updated_at` are store-assigned. -/
structure User where
  id : Nat
  full_name : PyVal
  email : PyVal
  phone : PyVal
  zip_code : PyVal
  address : PyVal
  number : PyVal
  city : PyVal
  state : PyVal
  terms_accepted : PyVal
  created_at : Nat
  updated_at : Nat
deriving DecidableEq, Repr

/-- Outcome of `validate_user_data`: an uncaught Python exception, a
structured `(message, status)` error return, or the success return
`(None, None)`. -/
inductive VResult where
  | raise
  | err (msg : String) (code : Nat)
  | ok
deriving DecidableEq, Repr

/-- The fixed order of required fields checked by the presence loop. -/
def required_fields : List String :=
  ["full_name", "email", "phone", "zip_code", "address",
   "number", "city", "state", "terms_accepted"]

/-- `field not in data or data[field] is None`. -/
def isMissing (data : Payload) (f : String) : Bool :=
  match pget data f with
  | Option.none => true
  | some .pynone => true
  | some _ => false

/-- The first missing required field, in the fixed order (the presence
loop returns on the first hit). -/
def firstMissing (data : Payload) : Option String :=
  required_fields.find? (fun f => isMissing data f)

/-- Read `data[f]` expecting a string; a non-string (or absent) value
means the Python code would raise when using it as a string. -/
def getStr (data : Payload) (f : String) : Option String :=
  match pget data f with
  | some (.str s) => some s
  | _ => Option.none

/-- The email-uniqueness stage of `validate_user_data`:
`User.query.filter_by(email=..).first()` followed by the conflict test
`existing_user and (exclude_user_id is None or existing_user.id != exclude_user_id)`. -/
def uniqueness_outcome (store : List User) (em : String)
    (exclude_user_id : Option Nat) : VResult :=
  match store.find? (fun u => u.email == PyVal.str em) with
  | some existing =>
      if (match exclude_user_id with
          | Option.none => true
          | some eid => existing.id != eid) then
        .err "Email already registered" 409
      else .ok
  | Option.none => .ok

/-- `validate_user_data(data, check_email_uniqueness, exclude_user_id)`
against the given store, parameterised by the external email-syntax
checker. Checks run in source order: presence, email syntax, phone, zip,
state, terms, email uniqueness, short-circuiting at the first failure. -/
def validate_user_data (emailOk : String → Bool) (data : Payload)
    (store : List User) (check_email_uniqueness : Bool)
    (exclude_user_id : Option Nat) : VResult :=
  match firstMissing data with
  | some f => .err ("Missing required field: " ++ f) 400
  | Option.none =>
    match getStr data "email" with
    | Option.none => .raise
    | some em =>
      if !(emailOk em) then .err "Invalid email format" 400 else
      match getStr data "phone" with
      | Option.none => .raise
      | some ph =>
        if !(validate_phone ph) then
          .err "Invalid phone format. Use (XX) XXXXX-XXXX or (XX) XXXX-XXXX" 400
        else
        match getStr data "zip_code" with
        | Option.none => .raise
        | some zp =>
          if !(validate_zip_code zp) then
            .err "Invalid zip code format. Use XXXXX-XXX" 400
          else
          match getStr data "state" with
          | Option.none => .raise
          | some st =>
            if !(validate_state st) then .err "Invalid state abbreviation" 400
            else
            match pget data "terms_accepted" with
            | Option.none => .raise
            | some t =>
              if !(pyTruthy t) then .err "Terms must be accepted" 400
              else
              if check_email_uniqueness then uniqueness_outcome store em exclude_user_id
              else .ok

/-- Outcome of a request handler: an uncaught Python exception (the
framework turns it into a generic 500), an error body with status code, or
a serialized user with status code. -/
inductive HandlerOut where
  | raise
  | resp (msg : String) (code : Nat)
  | user (u : User) (code : Nat)
deriving DecidableEq, Repr

/-- The field reads performed inside the `try` block of `UserList.post`
when constructing the new `User` row: every `data[..]` subscript, and
`data[state].upper()` which needs a string. `none` models an exception
inside the `try`, which the `except` clause turns into a rollback and a
generic 500. -/
def buildUser (data : Payload) (newId now : Nat) : Option User := do
  let fn ← pget data "full_name"
  let em ← pget data "email"
  let ph ← pget data "phone"
  let zp ← pget data "zip_code"
  let ad ← pget data "address"
  let nu ← pget data "number"
  let ci ← pget data "city"
  let st ← pget data "state"
  let tm ← pget data "terms_accepted"
  match st with
  | .str s =>
      some { id := newId, full_name := fn, email := em, phone := ph,
             zip_code := zp, address := ad, number := nu, city := ci,
             state := .str (pyUpper s), terms_accepted := tm,
             created_at := now, updated_at := now }
  | _ => Option.none

/-- `UserList.post`: validate, then construct and commit the new row.
`newId` and `now` are the store-assigned identifier and clock reading;
`commitOk` is whether `db.session.commit()` succeeds. Returns the handler
outcome and the store after the request (rollback restores the old store). -/
def UserList.post (emailOk : String → Bool) (data : Payload)
    (store : List User) (newId now : Nat) (commitOk : Bool) :
    HandlerOut × List User :=
  match validate_user_data emailOk data store true Option.none with
  | .raise => (.raise, store)
  | .err m c => (.resp m c, store)
  | .ok =>
    match buildUser data newId now with
    | some u =>
        if commitOk then (.user u 201, store ++ [u])
        else (.resp "Internal server error" 500, store)
    | Option.none => (.resp "Internal server error" 500, store)

/-- The field assignments performed inside the `try` block of
`UserResource.put`: every user-supplied field is replaced by the payload's
value, `state` is uppercased, and the ORM refreshes `updated_at` on
commit; `id` and `created_at` are not assigned. -/
def rebuildUser (user : User) (data : Payload) (now : Nat) : Option User := do
  let fn ← pget data "full_name"
  let em ← pget data "email"
  let ph ← pget data "phone"
  let zp ← pget data "zip_code"
  let ad ← pget data "address"
  let nu ← pget data "number"
  let ci ← pget data "city"
  let st ← pget data "state"
  let tm ← pget data "terms_accepted"
  match st with
  | .str s =>
      some { id := user.id, full_name := fn, email := em, phone := ph,
             zip_code := zp, address := ad, number := nu, city := ci,
             state := .str (pyUpper s), terms_accepted := tm,
             created_at := user.created_at, updated_at := now }
  | _ => Option.none

/-- `UserResource.put`: primary-key lookup, validation with the user's own
identifier excluded from the uniqueness check, then full replacement of the
fields and commit. -/
def UserResource.put (emailOk : String → Bool) (i : Nat) (data : Payload)
    (store : List User) (now : Nat) (commitOk : Bool) :
    HandlerOut × List User :=
  match store.find? (fun u => u.id == i) with
  | Option.none => (.resp "User not found" 404, store)
  | some user =>
    match validate_user_data emailOk data store true (some i) with
    | .raise => (.raise, store)
    | .err m c => (.resp m c, store)
    | .ok =>
      match rebuildUser user data now with
      | some u2 =>
          if commitOk then
            (.user u2 200, store.map (fun v => if v.id == i then u2 else v))
          else (.resp "Internal server error" 500, store)
      | Option.none => (.resp "Internal server error" 500, store)

/-- `UserResource.delete`: primary-key lookup, then delete and commit. -/
def UserResource.delete (i : Nat) (store : List User) (commitOk : Bool) :
    HandlerOut × List User :=
  match store.find? (fun u => u.id == i) with
  | Option.none => (.resp "User not found" 404, store)
  | some _ =>
      if commitOk then (.resp "" 204, store.filter (fun u => !(u.id == i)))
      else (.resp "Internal server error" 500, store)

/-- A mutating request, with its store-assigned parameters. -/
inductive Op where
  | createOp (data : Payload) (newId now : Nat) (commitOk : Bool)
  | updateOp (i : Nat) (data : Payload) (now : Nat) (commitOk : Bool)
  | deleteOp (i : Nat) (commitOk : Bool)

/-- The store after handling one request. -/
def applyOp (emailOk : String → Bool) (store : List User) : Op → List User
  | .createOp data newId now commitOk =>
      (UserList.post emailOk data store newId now commitOk).2
  | .updateOp i data now commitOk =>
      (UserResource.put emailOk i data store now commitOk).2
  | .deleteOp i commitOk =>
      (UserResource.delete i store commitOk).2

/-- The store after a sequence of requests. -/
def runOps (emailOk : String → Bool) (store : List User) (ops : List Op) :
    List User :=
  ops.foldl (applyOp emailOk) store

/-- The phone pattern exactly as the claim words it: two digits in
parentheses, then a space, a 4-or-5-digit block, a hyphen and a 4-digit
suffix, digits only, anchored, no extra characters. -/
def phoneClaimStrict (s : String) : Bool :=
  match s.data with
  | [p1, a, b, p2, w, c, d, e, f, x, g, h, i, j] =>
      p1 == '(' && a.isDigit && b.isDigit && p2 == ')' && w == ' ' &&
      c.isDigit && d.isDigit && e.isDigit && f.isDigit && x == '-' &&
      g.isDigit && h.isDigit && i.isDigit && j.isDigit
  | [p1, a, b, p2, w, c, d, e, f, k, x, g, h, i, j] =>
      p1 == '(' && a.isDigit && b.isDigit && p2 == ')' && w == ' ' &&
      c.isDigit && d.isDigit && e.isDigit && f.isDigit && k.isDigit &&
      x == '-' && g.isDigit && h.isDigit && i.isDigit && j.isDigit
  | _ => false

/-- The phone pattern as the amended claim words it: two digits in
parentheses, then one regex whitespace character (not only a space), the
4-or-5-digit block, the hyphen, the 4-digit suffix, and optionally one
trailing newline (tolerated by the dollar anchor); written positionally,
one arm per possible length 14, 15 (5-digit block, or 4-digit block plus
newline) and 16. -/
def phoneClaimAmended (s : String) : Bool :=
  match s.data with
  | [p1, a, b, p2, w, c, d, e, f, x, g, h, i, j] =>
      p1 == '(' && a.isDigit && b.isDigit && p2 == ')' && isPySpace w &&
      c.isDigit && d.isDigit && e.isDigit && f.isDigit && x == '-' &&
      g.isDigit && h.isDigit && i.isDigit && j.isDigit
  | [p1, a, b, p2, w, c, d, e, f, x, y, g, h, i, j] =>
      p1 == '(' && a.isDigit && b.isDigit && p2 == ')' && isPySpace w &&
      c.isDigit && d.isDigit && e.isDigit && f.isDigit &&
      ((x.isDigit && y == '-' &&
        g.isDigit && h.isDigit && i.isDigit && j.isDigit) ||
       (x == '-' && y.isDigit &&
        g.isDigit && h.isDigit && i.isDigit && j == '\n'))
  | [p1, a, b, p2, w, c, d, e, f, x, y, z, g, h, i, j] =>
      p1 == '(' && a.isDigit && b.isDigit && p2 == ')' && isPySpace w &&
      c.isDigit && d.isDigit && e.isDigit && f.isDigit && x.isDigit &&
      y == '-' && z.isDigit && g.isDigit && h.isDigit && i.isDigit &&
      j == '\n'
  | _ => false

/-- The user-supplied text fields of the data model. -/
def text_fields : List String :=
  ["full_name", "email", "phone", "zip_code", "address",
   "number", "city", "state"]

/-- A stored row whose state is an uppercase-normalized string. -/
def stateUppercased (u : User) : Prop :=
  ∃ s, u.state = PyVal.str s ∧ pyUpper s = s

/-!  Concrete payloads and stored rows used to instantiate the theorems. -/

/-- A payload that passes every check. -/
def samplePayload : Payload :=
  [("full_name", .str "Ana Silva"), ("email", .str "ana@example.com"),
   ("phone", .str "(11) 91234-5678"), ("zip_code", .str "12345-678"),
   ("address", .str "Rua A"), ("number", .str "123A"),
   ("city", .str "Sao Paulo"), ("state", .str "sp"),
   ("terms_accepted", .bool true)]

/-- Remove one field from a payload. -/
def dropField (data : Payload) (f : String) : Payload :=
  data.filter (fun kv => kv.1 != f)

/-- Overwrite one field of a payload. -/
def setField (data : Payload) (f : String) (v : PyVal) : Payload :=
  (f, v) :: dropField data f

/-- The row created from `samplePayload` with identifier 1 at time 0. -/
def storedAna : User :=
  { id := 1, full_name := .str "Ana Silva",
    email := .str "ana@example.com", phone := .str "(11) 91234-5678",
    zip_code := .str "12345-678", address := .str "Rua A",
    number := .str "123A", city := .str "Sao Paulo",
    state := .str "SP", terms_accepted := .bool true,
    created_at := 0, updated_at := 0 }

/-- An update payload for user 1: new name, new state, same email. -/
def updatePayload : Payload :=
  setField (setField samplePayload "full_name" (.str "Ana B. Silva"))
    "state" (.str "rj")

/-- The row 1 after a successful update with `updatePayload` at time 7. -/
def updatedAna : User :=
  { id := 1, full_name := .str "Ana B. Silva",
    email := .str "ana@example.com", phone := .str "(11) 91234-5678",
    zip_code := .str "12345-678", address := .str "Rua A",
    number := .str "123A", city := .str "Sao Paulo",
    state := .str "RJ", terms_accepted := .bool true,
    created_at := 0, updated_at := 7 }

/-- The sample payload with `terms_accepted` set to the integer 1. -/
def termsIntPayload : Payload :=
  setField samplePayload "terms_accepted" (.int 1)

/-- The sample payload with `terms_accepted` set to boolean false. -/
def termsFalsePayload : Payload :=
  setField samplePayload "terms_accepted" (.bool false)

/-- The sample payload with a mixed-case email. -/
def upperEmailPayload : Payload :=
  setField samplePayload "email" (.str "User@Example.com")

/-- The sample payload with the same email all lowercase. -/
def lowerEmailPayload : Payload :=
  setField samplePayload "email" (.str "user@example.com")

/-- The sample payload with an integer phone number. -/
def intPhonePayload : Payload :=
  setField samplePayload "phone" (.int 11912345678)

/-!  Helper lemmas. -/

/-- `find?` returns the head of the filtered list: the first element, in
list order, satisfying the predicate. -/
theorem find?_eq_filter_head? (p : α → Bool) (l : List α) :
    l.find? p = (l.filter p).head? := by
  induction l with
  | nil => rfl
  | cons a l ih =>
      cases h : p a with
      | false =>
          rw [List.find?_cons_of_neg _ (by simp [h]),
            List.filter_cons_of_neg (by simp [h]), ih]
      | true =>
          rw [List.find?_cons_of_pos _ h, List.filter_cons_of_pos h,
            List.head?_cons]

/-- The presence loop's first hit is the first missing required field in
the fixed field order. -/
theorem firstMissing_eq_filter_head (data : Payload) :
    firstMissing data =
      (required_fields.filter (fun f => isMissing data f)).head? :=
  find?_eq_filter_head? _ required_fields

/-- A valid codepoint round-trips through `Char.ofNat`. -/
theorem char_toNat_ofNat (n : Nat) (h : n.isValidChar) :
    (Char.ofNat n).toNat = n := by
  simp [Char.ofNat, h, Char.ofNatAux, Char.toNat, UInt32.toNat]

/-- `Char.toUpper` on a lowercase ASCII letter subtracts 32. -/
theorem toUpper_of_lower (c : Char) (h : c.toNat ≥ 97 ∧ c.toNat ≤ 122) :
    c.toUpper = Char.ofNat (c.toNat - 32) := by
  simp only [Char.toUpper]
  rw [if_pos h]

/-- `Char.toUpper` fixes everything outside the lowercase ASCII range. -/
theorem toUpper_of_not_lower (c : Char)
    (h : ¬(c.toNat ≥ 97 ∧ c.toNat ≤ 122)) : c.toUpper = c := by
  simp only [Char.toUpper]
  rw [if_neg h]

/-- `Char.toUpper` is idempotent. -/
theorem toUpper_toUpper (c : Char) : c.toUpper.toUpper = c.toUpper := by
  by_cases h : c.toNat ≥ 97 ∧ c.toNat ≤ 122
  · rw [toUpper_of_lower c h]
    have hv : (c.toNat - 32).isValidChar := Or.inl (by omega)
    have hn : (Char.ofNat (c.toNat - 32)).toNat = c.toNat - 32 :=
      char_toNat_ofNat _ hv
    exact toUpper_of_not_lower _ (by rw [hn]; omega)
  · rw [toUpper_of_not_lower c h, toUpper_of_not_lower c h]

/-- `pyUpper` is idempotent. -/
theorem pyUpper_idem (s : String) : pyUpper (pyUpper s) = pyUpper s := by
  simp only [pyUpper, List.map_map]
  exact congrArg String.mk
    (List.map_congr_left (fun c _ => toUpper_toUpper c))

/-- Unfolding `validate_user_data` once the six format/business checks are
known to pass: the result is the uniqueness outcome. -/
theorem validate_eq_uniqueness (emailOk : String → Bool) (data : Payload)
    (store : List User) (chk : Bool) (excl : Option Nat)
    (em ph zp st : String) (t : PyVal)
    (hm : firstMissing data = Option.none)
    (hem : getStr data "email" = some em) (hoe : emailOk em = true)
    (hph : getStr data "phone" = some ph) (hvp : validate_phone ph = true)
    (hzp : getStr data "zip_code" = some zp)
    (hvz : validate_zip_code zp = true)
    (hst : getStr data "state" = some st) (hvs : validate_state st = true)
    (ht : pget data "terms_accepted" = some t) (hvt : pyTruthy t = true) :
    validate_user_data emailOk data store chk excl =
      if chk then uniqueness_outcome store em excl else .ok := by
  simp [validate_user_data, hm, hem, hoe, hph, hvp, hzp, hvz, hst, hvs,
    ht, hvt]

/-- Conversely, a validator success against the empty store certifies that
each of the six format/business checks passed. -/
theorem checks_of_ok (emailOk : String → Bool) (data : Payload)
    (hpre : validate_user_data emailOk data [] true Option.none = .ok) :
    firstMissing data = Option.none ∧
    ∃ em ph zp st t,
      getStr data "email" = some em ∧ emailOk em = true ∧
      getStr data "phone" = some ph ∧ validate_phone ph = true ∧
      getStr data "zip_code" = some zp ∧ validate_zip_code zp = true ∧
      getStr data "state" = some st ∧ validate_state st = true ∧
      pget data "terms_accepted" = some t ∧ pyTruthy t = true := by
  cases hm : firstMissing data with
  | some f => simp [validate_user_data, hm] at hpre
  | none =>
    cases hem : getStr data "email" with
    | none => simp [validate_user_data, hm, hem] at hpre
    | some em =>
      cases hoe : emailOk em with
      | false => simp [validate_user_data, hm, hem, hoe] at hpre
      | true =>
        cases hph : getStr data "phone" with
        | none => simp [validate_user_data, hm, hem, hoe, hph] at hpre
        | some ph =>
          cases hvp : validate_phone ph with
          | false =>
            simp [validate_user_data, hm, hem, hoe, hph, hvp] at hpre
          | true =>
            cases hzp : getStr data "zip_code" with
            | none =>
              simp [validate_user_data, hm, hem, hoe, hph, hvp, hzp] at hpre
            | some zp =>
              cases hvz : validate_zip_code zp with
              | false =>
                simp [validate_user_data, hm, hem, hoe, hph, hvp, hzp,
                  hvz] at hpre
              | true =>
                cases hst : getStr data "state" with
                | none =>
                  simp [validate_user_data, hm, hem, hoe, hph, hvp, hzp,
                    hvz, hst] at hpre
                | some st =>
                  cases hvs : validate_state st with
                  | false =>
                    simp [validate_user_data, hm, hem, hoe, hph, hvp, hzp,
                      hvz, hst, hvs] at hpre
                  | true =>
                    cases ht : pget data "terms_accepted" with
                    | none =>
                      simp [validate_user_data, hm, hem, hoe, hph, hvp,
                        hzp, hvz, hst, hvs, ht] at hpre
                    | some t =>
                      cases hvt : pyTruthy t with
                      | false =>
                        simp [validate_user_data, hm, hem, hoe, hph, hvp,
                          hzp, hvz, hst, hvs, ht, hvt] at hpre
                      | true =>
                        exact ⟨rfl, em, ph, zp, st, t, rfl, hoe, rfl, hvp,
                          rfl, hvz, rfl, hvs, rfl, hvt⟩

/-!  Claim theorems. -/

/-- **C1**: whenever a required field is absent or null, validation (for
create and update alike: any uniqueness flag and any excluded identifier)
returns the 400 `MissingField` error naming the first missing field in the
fixed order, whatever the store and the email checker — so no later check
is evaluated; and in general the checks run in the fixed order presence,
email syntax, phone, zip, state, terms, short-circuiting at the first
failure: each error is reported whenever all earlier checks pass and that
check fails, regardless of the validity of any later field. -/
theorem validate_checks_fixed_order (emailOk : String → Bool)
    (data : Payload) (store : List User) (chk : Bool) (excl : Option Nat) :
    (∀ f, (required_fields.filter (fun g => isMissing data g)).head? =
        some f →
      validate_user_data emailOk data store chk excl =
        .err ("Missing required field: " ++ f) 400)
    ∧ ((required_fields.filter (fun g => isMissing data g)).head? =
        Option.none →
      ∀ em, getStr data "email" = some em → emailOk em = false →
        validate_user_data emailOk data store chk excl =
          .err "Invalid email format" 400)
    ∧ ((required_fields.filter (fun g => isMissing data g)).head? =
        Option.none →
      ∀ em ph, getStr data "email" = some em → emailOk em = true →
        getStr data "phone" = some ph → validate_phone ph = false →
        validate_user_data emailOk data store chk excl =
          .err "Invalid phone format. Use (XX) XXXXX-XXXX or (XX) XXXX-XXXX"
            400)
    ∧ ((required_fields.filter (fun g => isMissing data g)).head? =
        Option.none →
      ∀ em ph zp, getStr data "email" = some em → emailOk em = true →
        getStr data "phone" = some ph → validate_phone ph = true →
        getStr data "zip_code" = some zp → validate_zip_code zp = false →
        validate_user_data emailOk data store chk excl =
          .err "Invalid zip code format. Use XXXXX-XXX" 400)
    ∧ ((required_fields.filter (fun g => isMissing data g)).head? =
        Option.none →
      ∀ em ph zp st, getStr data "email" = some em → emailOk em = true →
        getStr data "phone" = some ph → validate_phone ph = true →
        getStr data "zip_code" = some zp → validate_zip_code zp = true →
        getStr data "state" = some st → validate_state st = false →
        validate_user_data emailOk data store chk excl =
          .err "Invalid state abbreviation" 400)
    ∧ ((required_fields.filter (fun g => isMissing data g)).head? =
        Option.none →
      ∀ em ph zp st t, getStr data "email" = some em → emailOk em = true →
        getStr data "phone" = some ph → validate_phone ph = true →
        getStr data "zip_code" = some zp → validate_zip_code zp = true →
        getStr data "state" = some st → validate_state st = true →
        pget data "terms_accepted" = some t → pyTruthy t = false →
        validate_user_data emailOk data store chk excl =
          .err "Terms must be accepted" 400) := by
  refine ⟨?_, ?_, ?_, ?_, ?_, ?_⟩
  · intro f hf
    have hm : firstMissing data = some f := by
      rw [firstMissing_eq_filter_head]; exact hf
    simp [validate_user_data, hm]
  · intro h0 em hem hoe
    have hm : firstMissing data = Option.none := by
      rw [firstMissing_eq_filter_head]; exact h0
    simp [validate_user_data, hm, hem, hoe]
  · intro h0 em ph hem hoe hph hvp
    have hm : firstMissing data = Option.none := by
      rw [firstMissing_eq_filter_head]; exact h0
    simp [validate_user_data, hm, hem, hoe, hph, hvp]
  · intro h0 em ph zp hem hoe hph hvp hzp hvz
    have hm : firstMissing data = Option.none := by
      rw [firstMissing_eq_filter_head]; exact h0
    simp [validate_user_data, hm, hem, hoe, hph, hvp, hzp, hvz]
  · intro h0 em ph zp st hem hoe hph hvp hzp hvz hst hvs
    have hm : firstMissing data = Option.none := by
      rw [firstMissing_eq_filter_head]; exact h0
    simp [validate_user_data, hm, hem, hoe, hph, hvp, hzp, hvz, hst, hvs]
  · intro h0 em ph zp st t hem hoe hph hvp hzp hvz hst hvs ht hvt
    have hm : firstMissing data = Option.none := by
      rw [firstMissing_eq_filter_head]; exact h0
    simp [validate_user_data, hm, hem, hoe, hph, hvp, hzp, hvz, hst, hvs,
      ht, hvt]

/-- Witness for C1: dropping `email` from the sample payload yields the
400 `MissingField` error naming `email`, the first missing field. -/
theorem validate_checks_fixed_order_witness :
    validate_user_data emailOkSimple (dropField samplePayload "email") []
      true Option.none = .err ("Missing required field: " ++ "email") 400 :=
  (validate_checks_fixed_order emailOkSimple
    (dropField samplePayload "email") [] true Option.none).1 "email"
    (by decide)

/-- **C2**: once the earlier checks pass, the uniqueness stage queries the
store for the first `User` whose email equals the payload's email exactly;
on create any match yields the 409 `EmailConflict` error, on update a
match yields it unless the matched record's identifier equals the updated
identifier, and a user whose identifier is the only one carrying that
email (in particular a user keeping its own email, given the store's
unique-email invariant) passes with no false conflict. -/
theorem validate_email_uniqueness_exact (emailOk : String → Bool)
    (data : Payload) (store : List User) (em : String)
    (hpre : validate_user_data emailOk data [] true Option.none = .ok)
    (hem : getStr data "email" = some em) :
    (∀ u, store.find? (fun v => v.email == PyVal.str em) = some u →
      validate_user_data emailOk data store true Option.none =
        .err "Email already registered" 409)
    ∧ (∀ i u, store.find? (fun v => v.email == PyVal.str em) = some u →
        u.id ≠ i →
        validate_user_data emailOk data store true (some i) =
          .err "Email already registered" 409)
    ∧ (∀ excl, store.find? (fun v => v.email == PyVal.str em) =
        Option.none →
        validate_user_data emailOk data store true excl = .ok)
    ∧ (∀ i, (∀ v ∈ store, v.email = PyVal.str em → v.id = i) →
        validate_user_data emailOk data store true (some i) = .ok) := by
  obtain ⟨hm, em', ph, zp, st, t, hem', hoe, hph, hvp, hzp, hvz, hst, hvs,
    ht, hvt⟩ := checks_of_ok emailOk data hpre
  have hee : em' = em := by
    have : some em' = some em := hem'.symm.trans hem
    injection this
  subst hee
  refine ⟨?_, ?_, ?_, ?_⟩
  · intro u hu
    rw [validate_eq_uniqueness emailOk data store true Option.none em' ph
      zp st t hm hem' hoe hph hvp hzp hvz hst hvs ht hvt]
    simp [uniqueness_outcome, hu]
  · intro i u hu hne
    rw [validate_eq_uniqueness emailOk data store true (some i) em' ph
      zp st t hm hem' hoe hph hvp hzp hvz hst hvs ht hvt]
    simp [uniqueness_outcome, hu, hne]
  · intro excl hnone
    rw [validate_eq_uniqueness emailOk data store true excl em' ph
      zp st t hm hem' hoe hph hvp hzp hvz hst hvs ht hvt]
    simp [uniqueness_outcome, hnone]
  · intro i hall
    rw [validate_eq_uniqueness emailOk data store true (some i) em' ph
      zp st t hm hem' hoe hph hvp hzp hvz hst hvs ht hvt]
    unfold uniqueness_outcome
    cases hf : store.find? (fun v => v.email == PyVal.str em') with
    | none => rfl
    | some w =>
      have hw := List.find?_some hf
      simp only [beq_iff_eq] at hw
      have hmem : w ∈ store := List.mem_of_find?_eq_some hf
      have hid : w.id = i := hall w hmem hw
      simp [hid]

/-- Witness for C2: updating the stored user 1 with a payload keeping its
own email passes the whole validation, no false conflict. -/
theorem validate_email_uniqueness_exact_witness :
    validate_user_data emailOkSimple samplePayload [storedAna] true
      (some 1) = .ok :=
  (validate_email_uniqueness_exact emailOkSimple samplePayload [storedAna]
    "ana@example.com" (by decide) rfl).2.2.2 1 (by decide)

/-- **C4** (counterexample): the code accepts `"(11)\t1234-5678"`, whose
separator is a tab, while the claim — two digits in parentheses, a space,
a 4-or-5-digit block, a hyphen, a 4-digit suffix, nothing else — says any
such string must be rejected. -/
theorem validate_phone_counterexample :
    validate_phone "(11)\t1234-5678" = true ∧
    phoneClaimStrict "(11)\t1234-5678" = false :=
  ⟨rfl, rfl⟩

/-- **C4** (amended): validation accepts exactly the strings of the form
`(DD)<w>DDDD-DDDD` or `(DD)<w>DDDDD-DDDD` where `<w>` is any single regex
whitespace character, optionally followed by one trailing newline; in
particular `"(11) 91234-5678"` and `"(11) 1234-5678"` pass while
`"11 91234-5678"` and `"(11) 912345678"` fail. -/
theorem validate_phone_characterization :
    (∀ s : String, validate_phone s = phoneClaimAmended s)
    ∧ validate_phone "(11) 91234-5678" = true
    ∧ validate_phone "(11) 1234-5678" = true
    ∧ validate_phone "11 91234-5678" = false
    ∧ validate_phone "(11) 912345678" = false := by
  refine ⟨?_, rfl, rfl, rfl, rfl⟩
  intro s
  unfold validate_phone phoneClaimAmended
  rcases hs : s.data with _ | ⟨p1, _ | ⟨a, _ | ⟨b, _ | ⟨p2, _ | ⟨w, l⟩⟩⟩⟩⟩ <;>
    try rfl
  rcases l with _ | ⟨c, _ | ⟨d, _ | ⟨e, _ | ⟨f, l⟩⟩⟩⟩ <;>
    simp [phoneMid, phoneTail, phoneSuffix, pyEnd]
  rcases l with
      _ | ⟨x, _ | ⟨y, _ | ⟨z, _ | ⟨g, _ | ⟨h, _ | ⟨i,
        _ | ⟨j, _ | ⟨k, l⟩⟩⟩⟩⟩⟩⟩⟩ <;>
    simp [phoneMid, phoneTail, phoneSuffix, pyEnd] <;>
    try simp [Bool.and_assoc]
  by_cases hx : x = '-'
  · subst hx
    simp [Bool.and_assoc, show (('-' : Char).isDigit) = false from rfl]
  · have hx2 : (x == '-') = false := by
      simp [hx]
    simp [hx2, Bool.and_assoc]

/-- **C3** (divergence): when the commit of a valid create fails — in
particular when the store's unique-email constraint is violated at commit
time by a concurrent insert of the same email after the pre-check passed —
the handler's catch-all turns the failure into the generic 500 internal
error and rolls back; it does not return the 409 `EmailConflict` the claim
requires. -/
theorem post_commit_failure_returns_500 :
    UserList.post emailOkSimple samplePayload [] 1 0 false =
      (.resp "Internal server error" 500, []) :=
  rfl

/-- **C5** (counterexample): a payload whose `terms_accepted` is the
integer 1 — a value other than boolean `true` — passes the whole
validation instead of being rejected with `TermsNotAccepted`. -/
theorem terms_truthy_counterexample :
    pget termsIntPayload "terms_accepted" = some (.int 1) ∧
    validate_user_data emailOkSimple termsIntPayload [] true Option.none =
      .ok :=
  ⟨rfl, rfl⟩

/-- **C5** (amended): the terms check passes exactly when `terms_accepted`
is truthy in the Python sense (boolean true, nonzero number, nonempty
string): when every earlier check passes, a falsy value — boolean false
in particular — is rejected with the 400 `TermsNotAccepted` error
regardless of the validity of all other fields, and a truthy value moves
on to the uniqueness check. -/
theorem validate_terms_truthiness (emailOk : String → Bool)
    (data : Payload) (store : List User) (chk : Bool) (excl : Option Nat)
    (em ph zp st : String) (t : PyVal)
    (hm : firstMissing data = Option.none)
    (hem : getStr data "email" = some em) (hoe : emailOk em = true)
    (hph : getStr data "phone" = some ph) (hvp : validate_phone ph = true)
    (hzp : getStr data "zip_code" = some zp)
    (hvz : validate_zip_code zp = true)
    (hst : getStr data "state" = some st) (hvs : validate_state st = true)
    (ht : pget data "terms_accepted" = some t) :
    (pyTruthy t = false →
      validate_user_data emailOk data store chk excl =
        .err "Terms must be accepted" 400)
    ∧ (pyTruthy t = true →
      validate_user_data emailOk data store chk excl =
        if chk then uniqueness_outcome store em excl else .ok) := by
  constructor
  · intro hvt
    simp [validate_user_data, hm, hem, hoe, hph, hvp, hzp, hvz, hst, hvs,
      ht, hvt]
  · intro hvt
    exact validate_eq_uniqueness emailOk data store chk excl em ph zp st t
      hm hem hoe hph hvp hzp hvz hst hvs ht hvt

/-- Witness for the amended C5: `terms_accepted: false` with every other
field valid is rejected with the 400 terms error. -/
theorem validate_terms_truthiness_witness :
    validate_user_data emailOkSimple termsFalsePayload [] true Option.none =
      .err "Terms must be accepted" 400 :=
  (validate_terms_truthiness emailOkSimple termsFalsePayload [] true
    Option.none "ana@example.com" "(11) 91234-5678" "12345-678" "sp"
    (.bool false) rfl rfl rfl rfl rfl rfl rfl rfl rfl rfl).1 rfl

/-- A row built by `UserList.post` carries an uppercase-normalized state. -/
theorem buildUser_stateUppercased (data : Payload) (newId now : Nat)
    (u : User) (h : buildUser data newId now = some u) :
    stateUppercased u := by
  simp only [buildUser, bind, Option.bind_eq_some] at h
  obtain ⟨fn, hfn, em, hem, ph, hph, zp, hzp, ad, had, nu, hnu, ci, hci,
    st, hstv, tm, htm, h⟩ := h
  cases st with
  | str s =>
      simp only [Option.some.injEq] at h
      exact ⟨pyUpper s, by rw [← h], pyUpper_idem s⟩
  | bool b => simp at h
  | int n => simp at h
  | pynone => simp at h

/-- A row rebuilt by `UserResource.put` carries an uppercase-normalized
state. -/
theorem rebuildUser_stateUppercased (w : User) (data : Payload) (now : Nat)
    (u : User) (h : rebuildUser w data now = some u) :
    stateUppercased u := by
  simp only [rebuildUser, bind, Option.bind_eq_some] at h
  obtain ⟨fn, hfn, em, hem, ph, hph, zp, hzp, ad, had, nu, hnu, ci, hci,
    st, hstv, tm, htm, h⟩ := h
  cases st with
  | str s =>
      simp only [Option.some.injEq] at h
      exact ⟨pyUpper s, by rw [← h], pyUpper_idem s⟩
  | bool b => simp at h
  | int n => simp at h
  | pynone => simp at h

/-- Every handler preserves the all-states-uppercase invariant. -/
theorem applyOp_stateUppercased (emailOk : String → Bool)
    (store : List User) (op : Op)
    (h : ∀ u ∈ store, stateUppercased u) :
    ∀ u ∈ applyOp emailOk store op, stateUppercased u := by
  cases op with
  | createOp data newId now commitOk =>
    intro u hu
    cases hv : validate_user_data emailOk data store true Option.none with
    | raise => simp [applyOp, UserList.post, hv] at hu; exact h u hu
    | err m c => simp [applyOp, UserList.post, hv] at hu; exact h u hu
    | ok =>
      cases hb : buildUser data newId now with
      | none =>
          simp [applyOp, UserList.post, hv, hb] at hu; exact h u hu
      | some v =>
        cases commitOk with
        | false =>
            simp [applyOp, UserList.post, hv, hb] at hu; exact h u hu
        | true =>
          simp [applyOp, UserList.post, hv, hb] at hu
          rcases hu with hu | hu
          · exact h u hu
          · exact hu ▸ buildUser_stateUppercased data newId now v hb
  | updateOp i data now commitOk =>
    intro u hu
    cases hf : store.find? (fun v => v.id == i) with
    | none => simp [applyOp, UserResource.put, hf] at hu; exact h u hu
    | some w =>
      cases hv : validate_user_data emailOk data store true (some i) with
      | raise =>
          simp [applyOp, UserResource.put, hf, hv] at hu; exact h u hu
      | err m c =>
          simp [applyOp, UserResource.put, hf, hv] at hu; exact h u hu
      | ok =>
        cases hb : rebuildUser w data now with
        | none =>
            simp [applyOp, UserResource.put, hf, hv, hb] at hu
            exact h u hu
        | some v =>
          cases commitOk with
          | false =>
              simp [applyOp, UserResource.put, hf, hv, hb] at hu
              exact h u hu
          | true =>
            simp [applyOp, UserResource.put, hf, hv, hb] at hu
            obtain ⟨x, hx, hxu⟩ := hu
            by_cases hxi : x.id = i
            · rw [if_pos hxi] at hxu
              exact hxu ▸ rebuildUser_stateUppercased w data now v hb
            · rw [if_neg hxi] at hxu
              exact hxu ▸ h x hx
  | deleteOp i commitOk =>
    intro u hu
    cases hf : store.find? (fun v => v.id == i) with
    | none => simp [applyOp, UserResource.delete, hf] at hu; exact h u hu
    | some w =>
      cases commitOk with
      | false =>
          simp [applyOp, UserResource.delete, hf] at hu; exact h u hu
      | true =>
        simp [applyOp, UserResource.delete, hf] at hu
        exact h u hu.1

/-- Any request sequence preserves the all-states-uppercase invariant. -/
theorem runOps_stateUppercased (emailOk : String → Bool) (ops : List Op) :
    ∀ store : List User, (∀ u ∈ store, stateUppercased u) →
      ∀ u ∈ runOps emailOk store ops, stateUppercased u := by
  induction ops with
  | nil => intro store h u hu; exact h u hu
  | cons op ops ih =>
    intro store h u hu
    exact ih (applyOp emailOk store op)
      (applyOp_stateUppercased emailOk store op h) u hu

/-- **C6**: state validation is case-insensitive — it depends only on the
uppercased form of the input — membership in the fixed 27-value set;
`"sp"` passes, `"XX"` is rejected with the 400 `InvalidState` error; and
every create and update stores the state uppercased, so any sequence of
operations preserves the invariant that every stored `User` has an
uppercase-normalized state. -/
theorem state_case_insensitive_upper_invariant (emailOk : String → Bool)
    (ops : List Op) (store : List User) :
    (∀ s s', pyUpper s = pyUpper s' →
      validate_state s = validate_state s')
    ∧ validate_state "sp" = true
    ∧ validate_user_data emailOkSimple
        (setField samplePayload "state" (.str "XX")) [] true Option.none =
        .err "Invalid state abbreviation" 400
    ∧ ((∀ u ∈ store, stateUppercased u) →
        ∀ u ∈ runOps emailOk store ops, stateUppercased u) := by
  refine ⟨?_, rfl, rfl, ?_⟩
  · intro s s' hss
    unfold validate_state
    rw [hss]
  · intro h
    exact runOps_stateUppercased emailOk ops store h

/-- Witness for C6: `"sp"` and `"SP"` validate alike, and the store
produced by a concrete create holds only uppercase-normalized states. -/
theorem state_case_insensitive_upper_invariant_witness :
    validate_state "sp" = validate_state "SP"
    ∧ ∀ u ∈ runOps emailOkSimple []
        [Op.createOp samplePayload 1 0 true], stateUppercased u :=
  ⟨(state_case_insensitive_upper_invariant emailOkSimple [] []).1 "sp" "SP"
      (by decide),
   (state_case_insensitive_upper_invariant emailOkSimple
      [Op.createOp samplePayload 1 0 true] []).2.2.2 (by simp)⟩

/-- **C7**: a successful update replaces every user-supplied field with
the payload's value (full replacement, state uppercased), sets
`updated_at` to the commit-time clock, and keeps the record's identifier
and `created_at` unchanged; every other record is untouched. -/
theorem put_full_replacement (emailOk : String → Bool) (i : Nat)
    (data : Payload) (store : List User) (now : Nat) (u : User)
    (fn em ph zp ad nu ci tm : PyVal) (s : String)
    (hfind : store.find? (fun v => v.id == i) = some u)
    (hval : validate_user_data emailOk data store true (some i) = .ok)
    (hfn : pget data "full_name" = some fn)
    (hem : pget data "email" = some em)
    (hph : pget data "phone" = some ph)
    (hzp : pget data "zip_code" = some zp)
    (had : pget data "address" = some ad)
    (hnu : pget data "number" = some nu)
    (hci : pget data "city" = some ci)
    (hst : pget data "state" = some (PyVal.str s))
    (htm : pget data "terms_accepted" = some tm) :
    UserResource.put emailOk i data store now true =
      (.user { id := u.id, full_name := fn, email := em, phone := ph,
               zip_code := zp, address := ad, number := nu, city := ci,
               state := .str (pyUpper s), terms_accepted := tm,
               created_at := u.created_at, updated_at := now } 200,
       store.map (fun v => if v.id == i then
         { id := u.id, full_name := fn, email := em, phone := ph,
           zip_code := zp, address := ad, number := nu, city := ci,
           state := .str (pyUpper s), terms_accepted := tm,
           created_at := u.created_at, updated_at := now } else v)) := by
  have hb : rebuildUser u data now =
      some { id := u.id, full_name := fn, email := em, phone := ph,
             zip_code := zp, address := ad, number := nu, city := ci,
             state := .str (pyUpper s), terms_accepted := tm,
             created_at := u.created_at, updated_at := now } := by
    simp [rebuildUser, hfn, hem, hph, hzp, had, hnu, hci, hst, htm]
  simp [UserResource.put, hfind, hval, hb]

/-- Witness for C7: updating the stored user 1 with a payload that changes
the name and the state replaces the fields, uppercases the state, sets
`updated_at := 7` and keeps `id` and `created_at`. -/
theorem put_full_replacement_witness :
    UserResource.put emailOkSimple 1 updatePayload [storedAna] 7 true =
      (.user updatedAna 200, [updatedAna]) :=
  put_full_replacement emailOkSimple 1 updatePayload [storedAna] 7
    storedAna (.str "Ana B. Silva") (.str "ana@example.com")
    (.str "(11) 91234-5678") (.str "12345-678") (.str "Rua A")
    (.str "123A") (.str "Sao Paulo") (.bool true) "rj"
    rfl rfl rfl rfl rfl rfl rfl rfl rfl rfl rfl

/-- **C8**: a failing commit leaves the store exactly as it was for all
three mutating handlers — whatever the request — and when the persistence
step was actually reached (lookup and validation succeeded), the handler
reports the generic 500 `InternalError` response. -/
theorem mutating_ops_rollback (emailOk : String → Bool) (data : Payload)
    (store : List User) (i newId now : Nat) :
    ((UserList.post emailOk data store newId now false).2 = store)
    ∧ ((UserResource.put emailOk i data store now false).2 = store)
    ∧ ((UserResource.delete i store false).2 = store)
    ∧ (validate_user_data emailOk data store true Option.none = .ok →
        ∀ u, buildUser data newId now = some u →
        (UserList.post emailOk data store newId now false).1 =
          .resp "Internal server error" 500)
    ∧ (∀ u, store.find? (fun v => v.id == i) = some u →
        validate_user_data emailOk data store true (some i) = .ok →
        ∀ u2, rebuildUser u data now = some u2 →
        (UserResource.put emailOk i data store now false).1 =
          .resp "Internal server error" 500)
    ∧ (∀ u, store.find? (fun v => v.id == i) = some u →
        (UserResource.delete i store false).1 =
          .resp "Internal server error" 500) := by
  refine ⟨?_, ?_, ?_, ?_, ?_, ?_⟩
  · cases hv : validate_user_data emailOk data store true Option.none with
    | raise => simp [UserList.post, hv]
    | err m c => simp [UserList.post, hv]
    | ok =>
      cases hb : buildUser data newId now with
      | none => simp [UserList.post, hv, hb]
      | some u => simp [UserList.post, hv, hb]
  · cases hf : store.find? (fun v => v.id == i) with
    | none => simp [UserResource.put, hf]
    | some u =>
      cases hv : validate_user_data emailOk data store true (some i) with
      | raise => simp [UserResource.put, hf, hv]
      | err m c => simp [UserResource.put, hf, hv]
      | ok =>
        cases hb : rebuildUser u data now with
        | none => simp [UserResource.put, hf, hv, hb]
        | some u2 => simp [UserResource.put, hf, hv, hb]
  · cases hf : store.find? (fun v => v.id == i) with
    | none => simp [UserResource.delete, hf]
    | some u => simp [UserResource.delete, hf]
  · intro hv u hb
    simp [UserList.post, hv, hb]
  · intro u hf hv u2 hb
    simp [UserResource.put, hf, hv, hb]
  · intro u hf
    simp [UserResource.delete, hf]

/-- Witness for C8: with a failing commit, a concrete create, update and
delete that all reach the persistence step return the generic 500 error
(and, by the theorem, leave their stores unchanged). -/
theorem mutating_ops_rollback_witness :
    (UserList.post emailOkSimple samplePayload [] 1 0 false).1 =
      .resp "Internal server error" 500
    ∧ (UserResource.put emailOkSimple 1 samplePayload [storedAna] 5
        false).1 = .resp "Internal server error" 500
    ∧ (UserResource.delete 1 [storedAna] false).1 =
      .resp "Internal server error" 500 :=
  ⟨(mutating_ops_rollback emailOkSimple samplePayload [] 1 1 0).2.2.2.1
      rfl storedAna rfl,
   (mutating_ops_rollback emailOkSimple samplePayload [storedAna] 1 1
      5).2.2.2.2.1 storedAna rfl rfl
      { storedAna with updated_at := 5 } rfl,
   (mutating_ops_rollback emailOkSimple samplePayload [storedAna] 1 1
      5).2.2.2.2.2 storedAna rfl⟩

/-- The uniqueness stage only ever returns a structured outcome, never an
exception. -/
theorem uniqueness_outcome_ne_raise (store : List User) (em : String)
    (excl : Option Nat) : uniqueness_outcome store em excl ≠ .raise := by
  unfold uniqueness_outcome
  cases hf : store.find? (fun u => u.email == PyVal.str em) with
  | none => simp
  | some w => split <;> first | (split <;> simp) | simp

/-- **C9**: the validator is total on payloads whose text fields are all
strings (and `terms_accepted` arbitrary) — no exception path is then
reachable, every outcome is a structured return; but a present, non-null,
non-string value in a field the validator handles as a string — an
integer phone, for instance — makes it raise instead of returning a
structured 400 error. -/
theorem validator_total_on_string_fields (emailOk : String → Bool)
    (data : Payload) (store : List User) (chk : Bool) (excl : Option Nat) :
    (validate_user_data emailOkSimple intPhonePayload [] true Option.none =
      .raise)
    ∧ ((∀ f ∈ text_fields, ∃ s, pget data f = some (PyVal.str s)) →
        validate_user_data emailOk data store chk excl ≠ .raise) := by
  constructor
  · rfl
  · intro H hc
    cases hm : firstMissing data with
    | some f => simp [validate_user_data, hm] at hc
    | none =>
      obtain ⟨em, hem0⟩ := H "email" (by simp [text_fields])
      have hem : getStr data "email" = some em := by simp [getStr, hem0]
      obtain ⟨ph, hph0⟩ := H "phone" (by simp [text_fields])
      have hph : getStr data "phone" = some ph := by simp [getStr, hph0]
      obtain ⟨zp, hzp0⟩ := H "zip_code" (by simp [text_fields])
      have hzp : getStr data "zip_code" = some zp := by
        simp [getStr, hzp0]
      obtain ⟨st, hst0⟩ := H "state" (by simp [text_fields])
      have hst : getStr data "state" = some st := by simp [getStr, hst0]
      have hterm : isMissing data "terms_accepted" = false := by
        have hall := List.find?_eq_none.mp
          (by simpa [firstMissing] using hm) "terms_accepted"
          (by simp [required_fields])
        simpa using hall
      cases ht : pget data "terms_accepted" with
      | none => simp [isMissing, ht] at hterm
      | some t =>
        cases hoe : emailOk em with
        | false => simp [validate_user_data, hm, hem, hoe] at hc
        | true =>
          cases hvp : validate_phone ph with
          | false =>
              simp [validate_user_data, hm, hem, hoe, hph, hvp] at hc
          | true =>
            cases hvz : validate_zip_code zp with
            | false =>
                simp [validate_user_data, hm, hem, hoe, hph, hvp, hzp,
                  hvz] at hc
            | true =>
              cases hvs : validate_state st with
              | false =>
                  simp [validate_user_data, hm, hem, hoe, hph, hvp, hzp,
                    hvz, hst, hvs] at hc
              | true =>
                cases hvt : pyTruthy t with
                | false =>
                    simp [validate_user_data, hm, hem, hoe, hph, hvp,
                      hzp, hvz, hst, hvs, ht, hvt] at hc
                | true =>
                  rw [validate_eq_uniqueness emailOk data store chk excl
                    em ph zp st t hm hem hoe hph hvp hzp hvz hst hvs ht
                    hvt] at hc
                  cases chk with
                  | false => simp at hc
                  | true =>
                      exact uniqueness_outcome_ne_raise store em excl hc

/-- Witness for C9: on the all-string sample payload no exception is
raised. -/
theorem validator_total_on_string_fields_witness :
    validate_user_data emailOkSimple samplePayload [] true Option.none ≠
      .raise :=
  (validator_total_on_string_fields emailOkSimple samplePayload [] true
    Option.none).2 (by
      intro f hf
      fin_cases hf <;> exact ⟨_, rfl⟩)

/-- **C10**: the created row stores the payload's email exactly as
supplied (no normalization); the uniqueness pre-check compares emails by
exact, case-sensitive string equality, so a store with no exact match
passes it; and two concrete creates whose emails differ only in letter
case both succeed and coexist, each stored verbatim. -/
theorem email_exact_case_sensitive (store : List User) (em : String)
    (excl : Option Nat) :
    (∀ data newId now u e, pget data "email" = some e →
        buildUser data newId now = some u → u.email = e)
    ∧ ((∀ v ∈ store, v.email ≠ PyVal.str em) →
        uniqueness_outcome store em excl = .ok)
    ∧ ((runOps emailOkSimple []
         [Op.createOp upperEmailPayload 1 0 true,
          Op.createOp lowerEmailPayload 2 1 true]).map User.email =
       [PyVal.str "User@Example.com", PyVal.str "user@example.com"]) := by
  refine ⟨?_, ?_, rfl⟩
  · intro data newId now u e he hb
    simp only [buildUser, bind, Option.bind_eq_some] at hb
    obtain ⟨fn, hfn, em', hem, ph, hph, zp, hzp, ad, had, nu, hnu, ci,
      hci, st, hstv, tm, htm, hb⟩ := hb
    have hee : em' = e := by
      have : some em' = some e := hem.symm.trans he
      injection this
    subst hee
    cases st with
    | str s =>
        simp only [Option.some.injEq] at hb
        rw [← hb]
    | bool b => simp at hb
    | int n => simp at hb
    | pynone => simp at hb
  · intro hall
    unfold uniqueness_outcome
    cases hf : store.find? (fun u => u.email == PyVal.str em) with
    | none => rfl
    | some w =>
      have hw := List.find?_some hf
      simp only [beq_iff_eq] at hw
      exact absurd hw (hall w (List.mem_of_find?_eq_some hf))

/-- Witness for C10: the row built from the sample payload stores its
email verbatim, and a store whose only email differs in case from the
candidate passes the uniqueness stage. -/
theorem email_exact_case_sensitive_witness :
    storedAna.email = PyVal.str "ana@example.com"
    ∧ uniqueness_outcome [storedAna] "User@Example.com" Option.none =
      .ok :=
  ⟨(email_exact_case_sensitive [] "" Option.none).1 samplePayload 1 0
      storedAna (PyVal.str "ana@example.com") rfl rfl,
   (email_exact_case_sensitive [storedAna] "User@Example.com"
      Option.none).2.1 (by decide)⟩
